import Mathlib

/-!
Shallow embedding of `src/app.py`, a streamlit/pandas dashboard over a static
album catalog, together with theorems settling the specification claims.

Rows of the pandas DataFrame are modelled as `AlbumRecord`; nullable cells
(`pd.NA` / `NaN` / `None`) are `Option` fields.  The external tabular engine's
elementwise operations used by the app (`Series.str.contains(pat, na=False)`,
`Series.between`, `DataFrame.sample(n, random_state)`) are modelled as
executable Lean functions on those rows, with regex patterns that the app
actually passes (plain text, and one fixed alternation) modelled by literal
substring containment.
-/

/-- One row of the catalog DataFrame.  The seven CSV columns are loaded by
`load_data`; `decade` models the extra column that tab 2 later assigns on the
shared DataFrame (`data['decade'] = ...`), absent (`none`) at load time. -/
structure AlbumRecord where
  artist : Option String
  album_title : Option String
  year : Option Int
  label : Option String
  track_count : Option Int
  tracklist : Option String
  thumb : Option String
  decade : Option Int := none
  deriving DecidableEq, Repr

/-- `startsWith needle hay`: `needle` is a literal prefix of `hay`. -/
def startsWith : List Char → List Char → Bool
  | [], _ => true
  | _ :: _, [] => false
  | a :: as, b :: bs => a == b && startsWith as bs

/-- `strContains needle hay`: `needle` occurs as a contiguous substring of
`hay`.  This models the match performed by `Series.str.contains` for the
literal (regex-metacharacter-free) patterns the app passes. -/
def strContains (needle : List Char) : List Char → Bool
  | [] => needle.isEmpty
  | c :: t => startsWith needle (c :: t) || strContains needle t

/-- Elementwise model of `series.str.contains(pat, na=False)`: a null cell
yields `false` (the `na=False` flag), a present cell is a substring test. -/
def containsO (pat : String) (x : Option String) : Bool :=
  match x with
  | none => false
  | some s => strContains pat.data s.data

/-- Model of `str.contains("Dee Jay Mix Club|Nielegal", na=False)`: the one
regex alternation used by the app, expanded into two literal matches. -/
def blacklistMatch (x : Option String) : Bool :=
  containsO "Dee Jay Mix Club" x || containsO "Nielegal" x

/-- Elementwise model of `series.between(lo, hi)` on the year column: after
`load_data` the column holds `NaN` for unknown years, and `NaN` compares
`false` against both bounds, so an unknown year never lies in any range. -/
def pyBetween (y : Option Int) (lo hi : Int) : Bool :=
  match y with
  | none => false
  | some v => decide (lo ≤ v) && decide (v ≤ hi)

/-- Model of `x.replace(',', '')` on the raw year text: every comma
(thousands separator) is removed. -/
def pyReplaceComma (s : String) : String :=
  ⟨s.data.filter (fun c => c != ',')⟩

/-- Value of a Unicode decimal digit (Numeric_Type=Decimal, category Nd) —
exactly the characters Python `int` accepts in a numeral.  Modelled on the Nd
ranges relevant to the catalog's text (ASCII, Arabic-Indic and Extended
Arabic-Indic digits); Python's table extends this with further Nd scripts
that behave the same way. -/
def decimalDigitValue (c : Char) : Option Nat :=
  if 0x30 ≤ c.toNat ∧ c.toNat ≤ 0x39 then some (c.toNat - 0x30)
  else if 0x660 ≤ c.toNat ∧ c.toNat ≤ 0x669 then some (c.toNat - 0x660)
  else if 0x6F0 ≤ c.toNat ∧ c.toNat ≤ 0x6F9 then some (c.toNat - 0x6F0)
  else none

/-- Characters with the Unicode digit property (Numeric_Type=Digit) that are
not decimal digits: `str.isdigit` accepts them but `int` rejects them.
Modelled on the superscript and subscript digits; Python's table extends
this with further same-class characters. -/
def isNonDecimalDigit (c : Char) : Bool :=
  decide (c.toNat = 0xB2 ∨ c.toNat = 0xB3 ∨ c.toNat = 0xB9 ∨
    c.toNat = 0x2070 ∨ (0x2074 ≤ c.toNat ∧ c.toNat ≤ 0x2079) ∨
    (0x2080 ≤ c.toNat ∧ c.toNat ≤ 0x2089))

/-- Model of Python `str.isdigit`: true iff the string is nonempty and every
character has the digit property — decimal or non-decimal digit. -/
def pyIsdigit (s : String) : Bool :=
  !s.data.isEmpty &&
    s.data.all (fun c => (decimalDigitValue c).isSome || isNonDecimalDigit c)

/-- Model of Python `int` on a string of digit characters: succeeds with the
base-10 value iff the string is nonempty and every character is a decimal
digit (category Nd); on any other character it raises ValueError (`none`) —
in particular on isdigit-true non-decimal digits such as superscripts. -/
def pyInt (l : List Char) : Option Nat :=
  if l.isEmpty then none
  else if l.all (fun c => (decimalDigitValue c).isSome) then
    some (l.foldl (fun acc c => 10 * acc + (decimalDigitValue c).getD 0) 0)
  else none

/-- The year normalization lambda of `load_data` (lines 35-37 of
`src/app.py`): `int(x.replace(',', '')) if pd.notna(x) and
x.replace(',', '').isdigit() else None`.  When the `isdigit` guard passes but
`int` raises (non-decimal digit characters), the ValueError escapes the
lambda (`Except.error`); otherwise the cell parses or becomes None. -/
def loadYear (x : Option String) : Except Unit (Option Int) :=
  match x with
  | none => .ok none
  | some s =>
    if pyIsdigit (pyReplaceComma s) then
      match pyInt (pyReplaceComma s).data with
      | some n => .ok (some (Int.ofNat n))
      | none => .error ()
    else .ok none

/-- `data['year'].apply(...)`: elementwise application over the raw column;
the first exception propagates and aborts the whole apply. -/
def applyLoadYear : List (Option String) → Except Unit (List (Option Int))
  | [] => .ok []
  | x :: xs =>
    match loadYear x with
    | .error e => .error e
    | .ok y =>
      match applyLoadYear xs with
      | .error e => .error e
      | .ok ys => .ok (y :: ys)

/-- The year column the caller of `load_data` ends up with: the normalized
column when the apply succeeds; when an exception reaches the `except`
handler (lines 40-42 of `src/app.py`) the loader reports the error and falls
back to an empty DataFrame, dropping every row. -/
def load_data_yearColumn (raw : List (Option String)) : List (Option Int) :=
  match applyLoadYear raw with
  | .ok ys => ys
  | .error _ => []

/-- The browse filter of tab 1 (`filtered_data`, lines 111-118 of
`src/app.py`): conjunction of the four user predicates, the year range, and
the two standing exclusions, in source order. -/
def browseFiltered (c : List AlbumRecord) (artistF : String) (ylo yhi : Int)
    (labelF trackF : String) : List AlbumRecord :=
  c.filter (fun r =>
    containsO artistF r.artist &&
    pyBetween r.year ylo yhi &&
    containsO labelF r.label &&
    containsO trackF r.tracklist &&
    !containsO "Various" r.artist &&
    !blacklistMatch r.label)

/-- The discovery filter inside `generate_discover_list` (lines 48-54 of
`src/app.py`): year range plus the two standing exclusions, then — only when
the label filter is a truthy (non-empty) string — a label substring filter. -/
def discoverFiltered (c : List AlbumRecord) (startYear endYear : Int)
    (labelFilter : String) : List AlbumRecord :=
  let f1 := c.filter (fun r =>
    pyBetween r.year startYear endYear &&
    !containsO "Various" r.artist &&
    !blacklistMatch r.label)
  if labelFilter = "" then f1 else f1.filter (fun r => containsO labelFilter r.label)

/-- One step of a linear congruential generator; the concrete PRNG standing in
for the external engine's seeded generator. -/
def lcg (s : Nat) : Nat := (1103515245 * s + 12345) % 2147483648

/-- Seeded sampling without replacement: repeatedly draw a pseudo-random index
into the remaining rows and remove the drawn row.  This is the model of the
external tabular engine's `DataFrame.sample(n, random_state)` core; the spec
admits any seeded PRNG-backed without-replacement sampler. -/
def sampleAux {α : Type} : Nat → Nat → List α → List α
  | 0, _, _ => []
  | _ + 1, _, [] => []
  | n + 1, s, x :: xs =>
    let s' := lcg s
    let i := s' % (x :: xs).length
    (x :: xs).get ⟨i, Nat.mod_lt _ (Nat.succ_pos xs.length)⟩ ::
      sampleAux n s' ((x :: xs).eraseIdx i)

/-- Model of `DataFrame.sample(n=n, random_state=randomState)` on `xs`:
when `randomState` is supplied the engine seeds a fresh generator from it and
the ambient global generator state `globalRngState` is not consulted;
when it is `None` the ambient state seeds the draw. -/
def pdSample {α : Type} (randomState : Option Nat) (globalRngState : Nat)
    (n : Nat) (xs : List α) : List α :=
  sampleAux n (randomState.getD globalRngState) xs

/-- `generate_discover_list` (lines 45-58 of `src/app.py`): filter, then
`filtered_data.sample(n=min(30, len(filtered_data)), random_state=42)` and
`reset_index(drop=True)` (the latter a no-op on the row sequence).
`globalRngState` is the ambient PRNG state of the process at call time. -/
def generate_discover_list (globalRngState : Nat) (data : List AlbumRecord)
    (startYear endYear : Int) (labelFilter : String) : List AlbumRecord :=
  let fd := discoverFiltered data startYear endYear labelFilter
  pdSample (some 42) globalRngState (min 30 fd.length) fd

/-- `week_data = [dates[i:i + 7] for i in range(0, len(dates), 7)]`: chunks of
seven consecutive entries, the last possibly shorter. -/
def weekChunks {α : Type} : List α → List (List α)
  | [] => []
  | a :: b :: c :: d :: e :: f :: g :: rest =>
      [a, b, c, d, e, f, g] :: weekChunks rest
  | l => [l]

/-- The cell grid built by `create_interactive_calendar` (lines 61-85 of
`src/app.py`).  Dates are day offsets `0..29` from today; each week row is
enumerated with `enumerate(week)` and the cell for in-week index `idx` shows
`discover_data.iloc[idx]` when `len(discover_data) > idx`, else no album. -/
def create_interactive_calendar (selection : List AlbumRecord) :
    List (List (Nat × Option AlbumRecord)) :=
  (weekChunks (List.range 30)).map (fun week =>
    week.enum.map (fun p =>
      (p.2, if p.1 < selection.length then selection[p.1]? else none)))

/-- `results_per_page = 20` (line 124 of `src/app.py`). -/
def results_per_page : Int := 20

/-- `total_pages = -(-len(filtered_data) // results_per_page)` (line 125 of
`src/app.py`); Python `//` is floor division, modelled by `Int.fdiv`. -/
def total_pages (filteredCount : Int) : Int :=
  -((-filteredCount).fdiv results_per_page)

/-- The distinct known years of the catalog in ascending order: the group
keys of `data.groupby('year')` (rows with `NaN` year are dropped, keys are
sorted ascending). -/
def yearKeys (c : List AlbumRecord) : List Int :=
  List.insertionSort (· ≤ ·) (c.filterMap (fun r => r.year)).dedup

/-- The known track counts of the rows in a given year group: `groupby`
collects the rows with that year, `mean` then skips the `NA` entries. -/
def groupTrackCounts (c : List AlbumRecord) (y : Int) : List Int :=
  (c.filter (fun r => r.year == some y)).filterMap (fun r => r.track_count)

/-- The mean `mean()` computes for one year group: skip unknown track counts;
a group with no known track count gets `NaN` (`none`), not a number. -/
def groupMean (c : List AlbumRecord) (y : Int) : Option ℚ :=
  let vals := groupTrackCounts c y
  if vals.isEmpty then none
  else some ((vals.map (fun v => (v : ℚ))).sum / (vals.length : ℚ))

/-- `avg_tracks_per_year = data.groupby('year')['track_count'].mean()`
(line 161 of `src/app.py`), as the ordered list of (year, mean) pairs. -/
def avg_tracks_per_year (c : List AlbumRecord) : List (Int × Option ℚ) :=
  (yearKeys c).map (fun y => (y, groupMean c y))

/-- `data['decade'] = (data['year'] // 10) * 10` (line 139 of `src/app.py`):
the statistics tab assigns a derived column in place on the shared catalog;
Python `//` on the `NaN`-bearing year column is floor division with `NaN`
propagating for unknown years. -/
def addDecadeColumn (c : List AlbumRecord) : List AlbumRecord :=
  c.map (fun r => { r with decade := r.year.map (fun y => y.fdiv 10 * 10) })

/-- Projection onto the seven loaded CSV fields (forget the derived column). -/
def stripDecade (r : AlbumRecord) : AlbumRecord := { r with decade := none }

/-- The non-year conjuncts of the browse filter predicate, in source order:
the three user text predicates and the two standing exclusions. -/
def browseOtherPreds (artistF labelF trackF : String) (r : AlbumRecord) : Bool :=
  containsO artistF r.artist &&
  containsO labelF r.label &&
  containsO trackF r.tracklist &&
  !containsO "Various" r.artist &&
  !blacklistMatch r.label

/-- The non-year conjuncts of the discovery filter: the two standing
exclusions and the optional label predicate (skipped on a blank filter). -/
def discoverOtherPreds (labelFilter : String) (r : AlbumRecord) : Bool :=
  !containsO "Various" r.artist &&
  !blacklistMatch r.label &&
  (labelFilter == "" || containsO labelFilter r.label)

/-- Spec-side definition for claim C4, following the spec words only: the
records surviving just the two standing exclusions, to be compared with what
the browse filter returns on all-blank text predicates. -/
def standingExclusionsOnly (c : List AlbumRecord) : List AlbumRecord :=
  c.filter (fun r => !containsO "Various" r.artist && !blacklistMatch r.label)

/-- A fully populated row: every field present, year in range, not matching
any exclusion. -/
def rowFull : AlbumRecord :=
  { artist := some "Kaliber 44", album_title := some "Ksiega Tajemnicza",
    year := some 1999, label := some "Gigant Records", track_count := some 18,
    tracklist := some "Intro | Normalnie o tej porze", thumb := some "k44.jpg" }

/-- Like `rowFull` but with a null tracklist cell. -/
def rowNoTracklist : AlbumRecord := { rowFull with tracklist := none }

/-- Like `rowFull` but with year 2000 and an unknown track count. -/
def rowUnknownTracks : AlbumRecord :=
  { rowFull with year := some 2000, track_count := none }

/-- A small distinguishable album, for exercising the calendar pairing. -/
def demoAlbum (i : Nat) : AlbumRecord :=
  { artist := some "A", album_title := some (toString i), year := some 1999,
    label := some "L", track_count := none, tracklist := none, thumb := none }

/-- An eight-entry discovery selection of pairwise distinct albums. -/
def demoSelection : List AlbumRecord := (List.range 8).map demoAlbum

theorem strContains_nil (hay : List Char) : strContains [] hay = true := by
  cases hay <;> simp [strContains, startsWith]

theorem containsO_nil_pattern (x : Option String) : containsO "" x = x.isSome := by
  cases x with
  | none => rfl
  | some s =>
    show strContains [] s.data = true
    exact strContains_nil s.data

theorem containsO_true_isSome {pat : String} {x : Option String}
    (h : containsO pat x = true) : x.isSome = true := by
  cases x with
  | none => exact absurd h (by simp [containsO])
  | some s => rfl

theorem pyBetween_eq_true_iff (y : Option Int) (lo hi : Int) :
    pyBetween y lo hi = true ↔ ∃ v, y = some v ∧ lo ≤ v ∧ v ≤ hi := by
  cases y <;> simp [pyBetween]

theorem sampleAux_length {α : Type} (n : Nat) :
    ∀ (s : Nat) (xs : List α), (sampleAux n s xs).length = min n xs.length := by
  induction n with
  | zero => intro s xs; simp [sampleAux]
  | succ n ih =>
    intro s xs
    match xs with
    | [] => simp [sampleAux]
    | x :: xs =>
      have herase : ∀ i : Nat, i < (x :: xs).length →
          ((x :: xs).eraseIdx i).length = xs.length := by
        intro i hi
        rw [List.length_eraseIdx, if_pos hi]
        rfl
      simp only [sampleAux, List.length_cons, ih]
      rw [herase (lcg s % (xs.length + 1)) (Nat.mod_lt _ (Nat.succ_pos xs.length))]
      omega

theorem get_cons_eraseIdx_perm {α : Type} :
    ∀ (l : List α) (i : Nat) (h : i < l.length),
      (l.get ⟨i, h⟩ :: l.eraseIdx i).Perm l := by
  intro l
  induction l with
  | nil => intro i h; exact absurd h (Nat.not_lt_zero i)
  | cons x xs ih =>
    intro i h
    cases i with
    | zero => exact List.Perm.refl _
    | succ j =>
      have hj : j < xs.length := Nat.lt_of_succ_lt_succ h
      show (xs.get ⟨j, hj⟩ :: x :: xs.eraseIdx j).Perm (x :: xs)
      exact (List.Perm.swap x (xs.get ⟨j, hj⟩) (xs.eraseIdx j)).trans
        ((ih j hj).cons x)

theorem sampleAux_subperm {α : Type} (n : Nat) :
    ∀ (s : Nat) (xs : List α), (sampleAux n s xs).Subperm xs := by
  induction n with
  | zero => intro s xs; simp [sampleAux, List.nil_subperm]
  | succ n ih =>
    intro s xs
    match xs with
    | [] => simp [sampleAux, List.nil_subperm]
    | x :: xs =>
      have hlt : lcg s % (x :: xs).length < (x :: xs).length :=
        Nat.mod_lt _ (Nat.succ_pos xs.length)
      have h1 := ih (lcg s) ((x :: xs).eraseIdx (lcg s % (x :: xs).length))
      have h2 := (List.subperm_cons
        ((x :: xs).get ⟨lcg s % (x :: xs).length, hlt⟩)).2 h1
      exact h2.trans (get_cons_eraseIdx_perm (x :: xs) _ hlt).subperm

/-- C1: the code violates this claim.  `create_interactive_calendar` pairs
each date with the selection entry at the date's index *within its week row*
(`enumerate(week)`), not at its 0-based index across the whole 30-day window:
with an eight-album selection, the eighth date (global index 7, first cell of
the second week) shows album 0 again instead of album 7. -/
theorem calendar_pairing_resets_each_week :
    ((create_interactive_calendar demoSelection).flatten.map Prod.snd)[7]? =
      some (some (demoAlbum 0))
    ∧ some (some (demoAlbum 0)) ≠ some (some (demoAlbum 7)) := by
  constructor
  · rfl
  · decide

/-- C2: the code violates the flooring clause — `total_pages` is the ceiling
`-(-count // 20)` with no floor at 1, so with zero filtered rows it is 0,
not 1 (and the page slider is then asked for the empty range [1, 0]). -/
theorem total_pages_not_floored_at_one :
    total_pages 0 = 0 ∧ total_pages 0 ≠ 1 := by decide

/-- C3: determinism of the discovery sampler.  `generate_discover_list`
passes the fixed `random_state=42` to the sampling engine, so its result does
not depend on the ambient PRNG state: two calls with identical
(catalog, startYear, endYear, labelSubstring) tuples return selections with
identical contents in identical order. -/
theorem discover_list_deterministic (g1 g2 : Nat) (c : List AlbumRecord)
    (a b : Int) (lab : String) :
    generate_discover_list g1 c a b lab = generate_discover_list g2 c a b lab := rfl

/-- C4 fails as stated: on a one-row catalog whose row has a null tracklist
cell, the all-blank browse filter returns nothing although the row survives
both standing exclusions, because `str.contains("", na=False)` is false on a
null cell. -/
theorem blank_filter_counterexample :
    browseFiltered [rowNoTracklist] "" 1991 2024 "" "" ≠
      standingExclusionsOnly [rowNoTracklist] := by decide

/-- C4 (amended): with all text predicates blank, the browse filter returns
exactly the records that survive the two standing exclusions, whose year is
known and within the selected range, and whose artist, label and tracklist
cells are all present; a blank text predicate matches exactly the records
whose corresponding field is non-null. -/
theorem blank_filter_requires_present_fields (c : List AlbumRecord) (lo hi : Int) :
    browseFiltered c "" lo hi "" "" =
      c.filter (fun r =>
        r.artist.isSome && pyBetween r.year lo hi && r.label.isSome &&
        r.tracklist.isSome && !containsO "Various" r.artist &&
        !blacklistMatch r.label) := by
  unfold browseFiltered
  apply List.filter_congr
  intro r _
  simp only [containsO_nil_pattern]

/-- C9 fails as stated: the statistics tab's `data['decade'] = ...` is an
in-place mutation of the shared catalog — on a freshly loaded row (decade
column absent) it changes the row. -/
theorem decade_assignment_mutates : addDecadeColumn [rowFull] ≠ [rowFull] := by
  decide

/-- C9 (amended): the seven loaded fields of every record are never modified —
the in-place decade assignment changes only the derived `decade` column and
keeps the record count, and the browse and discovery filters return
order-preserving subsequences of the catalog rather than altering it. -/
theorem catalog_core_fields_preserved (c : List AlbumRecord)
    (aF lF tF lab : String) (lo hi : Int) :
    (addDecadeColumn c).map stripDecade = c.map stripDecade
    ∧ (addDecadeColumn c).length = c.length
    ∧ (browseFiltered c aF lo hi lF tF).Sublist c
    ∧ (discoverFiltered c lo hi lab).Sublist c := by
  refine ⟨?_, by simp [addDecadeColumn], List.filter_sublist _, ?_⟩
  · rw [addDecadeColumn, List.map_map]
    rfl
  · unfold discoverFiltered
    by_cases hlab : lab = ""
    · simp only [if_pos hlab]
      exact List.filter_sublist _
    · simp only [if_neg hlab]
      exact (List.filter_sublist _).trans (List.filter_sublist _)

/-- C5: a record passes the browse or the discovery filter iff — along with
the respective non-year predicates — its year is known and lies inclusively
between the bounds; in particular a record with unknown year never matches a
bounded range predicate. -/
theorem year_range_membership (c : List AlbumRecord) (lo hi : Int)
    (aF lF tF lab : String) (r : AlbumRecord) :
    (r ∈ browseFiltered c aF lo hi lF tF ↔
      r ∈ c ∧ (∃ v, r.year = some v ∧ lo ≤ v ∧ v ≤ hi) ∧
        browseOtherPreds aF lF tF r = true)
    ∧ (r ∈ discoverFiltered c lo hi lab ↔
      r ∈ c ∧ (∃ v, r.year = some v ∧ lo ≤ v ∧ v ≤ hi) ∧
        discoverOtherPreds lab r = true) := by
  constructor
  · rw [browseFiltered, List.mem_filter]
    simp only [browseOtherPreds, Bool.and_eq_true, pyBetween_eq_true_iff]
    tauto
  · simp only [discoverFiltered]
    by_cases hlab : lab = ""
    · simp only [hlab, if_true, eq_self_iff_true, List.mem_filter,
        discoverOtherPreds, Bool.and_eq_true, Bool.or_eq_true, beq_iff_eq,
        pyBetween_eq_true_iff]
      tauto
    · simp only [if_neg hlab, List.mem_filter, discoverOtherPreds,
        Bool.and_eq_true, Bool.or_eq_true, beq_iff_eq, pyBetween_eq_true_iff]
      tauto

/-- C5 at a concrete input: the fully populated 1999 row is in the browse
output for the default range, hence its year is known and in range. -/
theorem year_range_membership_witness :
    rowFull ∈ [rowFull] ∧
      (∃ v, rowFull.year = some v ∧ (1991 : Int) ≤ v ∧ v ≤ 2024) ∧
      browseOtherPreds "" "" "" rowFull = true :=
  (year_range_membership [rowFull] 1991 2024 "" "" "" "" rowFull).1.mp (by decide)

/-- C6: the discovery sampler returns exactly min(30, matchingCount) records
drawn without replacement (its output is a sub-permutation of the filtered
subset), every returned record belongs to the filtered subset, and an empty
matching subset yields an empty selection rather than a failure. -/
theorem discover_sample_bounds (g : Nat) (c : List AlbumRecord) (a b : Int)
    (lab : String) :
    (generate_discover_list g c a b lab).length =
      min 30 (discoverFiltered c a b lab).length
    ∧ (generate_discover_list g c a b lab).Subperm (discoverFiltered c a b lab)
    ∧ (∀ r, r ∈ generate_discover_list g c a b lab →
        r ∈ discoverFiltered c a b lab)
    ∧ (discoverFiltered c a b lab = [] →
        generate_discover_list g c a b lab = []) := by
  have hs : generate_discover_list g c a b lab =
      sampleAux (min 30 (discoverFiltered c a b lab).length) 42
        (discoverFiltered c a b lab) := rfl
  have hlen : (generate_discover_list g c a b lab).length =
      min 30 (discoverFiltered c a b lab).length := by
    rw [hs, sampleAux_length]
    omega
  refine ⟨hlen, ?_, ?_, ?_⟩
  · rw [hs]
    exact sampleAux_subperm _ _ _
  · intro r hr
    exact (sampleAux_subperm _ 42 _).subset (hs ▸ hr)
  · intro hnil
    have hz : (generate_discover_list g c a b lab).length = 0 := by
      rw [hlen, hnil]
      rfl
    exact List.length_eq_zero.1 hz

/-- C6 at a concrete input: an empty catalog has an empty matching subset and
the sampler returns the empty selection. -/
theorem discover_sample_bounds_witness :
    generate_discover_list 0 [] 1991 2024 "" = [] :=
  (discover_sample_bounds 0 [] 1991 2024 "").2.2.2 rfl

/-- C7: the code violates the never-abort clause.  For the raw year cell "²"
(superscript two) the `isdigit` guard passes but `int` raises ValueError; the
exception escapes the `apply` lambda into `load_data`'s `except` handler and
the loader falls back to an empty catalog — the whole load aborts and even
valid rows are dropped, where the claim requires the malformed field to
become unknown with every row kept.  The guard alone is the slip
(`isdecimal` was meant): comma-stripped decimal years parse (also non-ASCII
ones), genuinely non-digit text becomes unknown, and a null cell stays
unknown. -/
theorem year_isdigit_crashes_load :
    pyIsdigit (pyReplaceComma "²") = true
    ∧ loadYear (some "²") = .error ()
    ∧ load_data_yearColumn [some "1,999", some "²"] = []
    ∧ loadYear (some "1,999") = .ok (some 1999)
    ∧ loadYear (some "١٩٩٩") = .ok (some 1999)
    ∧ loadYear (some "199x") = .ok none
    ∧ loadYear none = .ok none :=
  ⟨rfl, rfl, rfl, rfl, rfl, rfl, rfl⟩

/-- C8: `avg_tracks_per_year` has an entry for every known year occurring in
the catalog; a group in which every record has unknown track_count gets an
unknown mean (not zero), and any reported mean q is the arithmetic mean of
the k known track counts of the group (q·k equals their sum with k ≠ 0). -/
theorem avg_tracks_group_mean (c : List AlbumRecord) (y : Int)
    (h : ∃ r, r ∈ c ∧ r.year = some y) :
    (y, groupMean c y) ∈ avg_tracks_per_year c
    ∧ ((∀ r ∈ c, r.year = some y → r.track_count = none) →
        groupMean c y = none)
    ∧ (∀ q, groupMean c y = some q →
        groupTrackCounts c y ≠ []
        ∧ q * ((groupTrackCounts c y).length : ℚ) =
            ((groupTrackCounts c y).map (fun v => (v : ℚ))).sum) := by
  refine ⟨?_, ?_, ?_⟩
  · obtain ⟨r, hr, hy⟩ := h
    have h1 : y ∈ c.filterMap (fun r => r.year) :=
      List.mem_filterMap.2 ⟨r, hr, hy⟩
    have h2 : y ∈ yearKeys c :=
      ((List.perm_insertionSort (· ≤ ·) _).mem_iff).2 (List.mem_dedup.2 h1)
    exact List.mem_map.2 ⟨y, h2, rfl⟩
  · intro hall
    have hnil : groupTrackCounts c y = [] := by
      rw [groupTrackCounts, List.filterMap_eq_nil_iff]
      intro r hr
      have hm := List.mem_filter.1 hr
      exact hall r hm.1 (by simpa using hm.2)
    simp [groupMean, hnil]
  · intro q hq
    simp only [groupMean] at hq
    by_cases he : (groupTrackCounts c y).isEmpty = true
    · simp [he] at hq
    · have hne : groupTrackCounts c y ≠ [] := by
        intro hnil
        rw [hnil] at he
        exact he rfl
      refine ⟨hne, ?_⟩
      rw [if_neg he] at hq
      have hlen : ((groupTrackCounts c y).length : ℚ) ≠ 0 :=
        Nat.cast_ne_zero.2 (Nat.pos_iff_ne_zero.1 (List.length_pos.2 hne))
      obtain rfl : ((groupTrackCounts c y).map (fun v => (v : ℚ))).sum /
          ((groupTrackCounts c y).length : ℚ) = q := Option.some.inj hq
      exact div_mul_cancel₀ _ hlen

/-- C8 at a concrete input: a catalog whose only year-2000 record has an
unknown track count yields an unknown mean for that group, not zero. -/
theorem avg_tracks_group_mean_witness :
    groupMean [rowUnknownTracks] 2000 = none :=
  (avg_tracks_group_mean [rowUnknownTracks] 2000
      ⟨rowUnknownTracks, by simp, rfl⟩).2.1
    (by
      intro r hr hy
      simp only [List.mem_singleton] at hr
      subst hr
      rfl)

/-- C10: a record with a null artist, label, or tracklist cell never appears
in the browse filter output, whatever the predicate inputs (all-blank
included): every record the filter returns has all three fields present. -/
theorem null_fields_never_match (c : List AlbumRecord) (aF lF tF : String)
    (lo hi : Int) (r : AlbumRecord)
    (h : r ∈ browseFiltered c aF lo hi lF tF) :
    r.artist.isSome = true ∧ r.label.isSome = true ∧
      r.tracklist.isSome = true := by
  have hp := (List.mem_filter.1 h).2
  simp only [Bool.and_eq_true] at hp
  obtain ⟨⟨⟨⟨⟨hA, hB⟩, hL⟩, hT⟩, hV⟩, hBl⟩ := hp
  exact ⟨containsO_true_isSome hA, containsO_true_isSome hL,
    containsO_true_isSome hT⟩

/-- C10 at a concrete input: the fully populated row passes the all-blank
filter, so all three of its text fields are present. -/
theorem null_fields_never_match_witness :
    rowFull.artist.isSome = true ∧ rowFull.label.isSome = true ∧
      rowFull.tracklist.isSome = true :=
  null_fields_never_match [rowFull] "" "" "" 1991 2024 rowFull (by decide)
